/-
  Verification of the cash_horizon financial analysis core.

  Shallow embedding of the deterministic computation engine
  (backend/app/tools/financial_calculator.py, chart_generator.py),
  the investment advisor task pipeline
  (backend/app/agents/investment_advisor_agent.py) and the workflow
  orchestration logic (backend/app/agents/orchestrator.py,
  base_agent.py).

  Modelling conventions:
  - Python floats are modelled as rationals; `round(x, 2)` is modelled by
    `round2` using round-half-to-even on the exact rational value.
  - Timestamps are modelled by `DateT`: a calendar month index plus a
    sub-month position, ordered lexicographically (ISO date strings
    compare lexicographically and the month is a prefix).  The cutoff
    computed from `utcnow()` in the source is taken as a parameter.
  - `float('inf')` (infinite runway) is modelled by `none`; the Python
    comparison `inf < c` is `False`, mirrored by `rmLt`.
  - The external Gemini call and the web-search tool are opaque
    collaborators; they enter as parameters (an `Except` outcome for the
    LLM call, a plain list for search results).
-/
import Mathlib

namespace CashHorizon

/-- Round-half-to-even of a rational to an integer, modelling Python
`round` on an exactly-represented value. -/
def rhe (q : ℚ) : ℤ :=
  if q < (⌊q⌋ : ℚ) + 1/2 then ⌊q⌋
  else if (⌊q⌋ : ℚ) + 1/2 < q then ⌊q⌋ + 1
  else if ⌊q⌋ % 2 = 0 then ⌊q⌋ else ⌊q⌋ + 1

/-- Model of Python `round(x, 2)` on an exact rational value. -/
def round2 (q : ℚ) : ℚ := (rhe (100 * q) : ℚ) / 100

/-- A timestamp: calendar month index (`strftime("%Y-%m")` bucket) plus a
position inside the month. -/
structure DateT where
  month : ℤ
  sub : ℕ
deriving DecidableEq

/-- Lexicographic order on timestamps, mirroring datetime comparison. -/
def dateLe (a b : DateT) : Bool :=
  decide (a.month < b.month ∨ (a.month = b.month ∧ a.sub ≤ b.sub))

/-- A transaction record: date, amount, type string ("income"/"expense")
and category, as consumed by the calculator tools. -/
structure Txn where
  date : DateT
  amount : ℚ
  ttype : String
  category : String
deriving DecidableEq

/-- Transactions at or after the cutoff date. -/
def recentTxs (cutoff : DateT) (txs : List Txn) : List Txn :=
  txs.filter (fun t => dateLe cutoff t.date)

/-- Transactions whose type is exactly "income". -/
def incomeTxs (txs : List Txn) : List Txn :=
  txs.filter (fun t => t.ttype == "income")

/-- Transactions whose type is exactly "expense". -/
def expenseTxs (txs : List Txn) : List Txn :=
  txs.filter (fun t => t.ttype == "expense")

/-- Transactions whose type is not "income": the `else` branch of
`calculate_burn_rate`, which treats every non-income type as expense. -/
def nonIncomeTxs (txs : List Txn) : List Txn :=
  txs.filter (fun t => !(t.ttype == "income"))

/-- Sum of the amounts of a transaction list. -/
def amountSum (txs : List Txn) : ℚ := (txs.map Txn.amount).sum

/-- Distinct elements of a list in first-occurrence order (Python dict
key order). -/
def distinctList (l : List ℤ) : List ℤ :=
  l.foldl (fun acc m => if m ∈ acc then acc else acc ++ [m]) []

/-- The distinct month keys occurring in a transaction list. -/
def monthsOf (txs : List Txn) : List ℤ :=
  distinctList (txs.map (fun t => t.date.month))

/-- Total amount in one month bucket. -/
def monthSum (txs : List Txn) (m : ℤ) : ℚ :=
  amountSum (txs.filter (fun t => t.date.month == m))

/-- Result of `FinancialCalculator.calculate_balance`. -/
structure BalanceResult where
  current_balance : ℚ
  initial_capital : ℚ
  total_income : ℚ
  total_expenses : ℚ
  net_change : ℚ
  balance_status : String
deriving DecidableEq

/-- `FinancialCalculator.calculate_balance`: no time filter, income minus
expense over the whole set, every returned number rounded to 2 places. -/
def calculate_balance (initial_capital : ℚ) (transactions : List Txn) : BalanceResult :=
  let total_income := amountSum (incomeTxs transactions)
  let total_expenses := amountSum (expenseTxs transactions)
  let current_balance := initial_capital + total_income - total_expenses
  { current_balance := round2 current_balance
    initial_capital := round2 initial_capital
    total_income := round2 total_income
    total_expenses := round2 total_expenses
    net_change := round2 (total_income - total_expenses)
    balance_status := if 0 < current_balance then "positive" else "negative" }

/-- Runway health status strings of `calculate_runway`. -/
inductive RunwayStatus where
  | critical
  | warning
  | healthy
  | excellent
  | positive_cash_flow
deriving DecidableEq

/-- Result of `FinancialCalculator.calculate_runway`.  `none` in
`runway_months`/`runway_days` models `float('inf')`;
`has_depletion_date` models whether `estimated_depletion_date` is a date
string rather than `None` (the concrete date depends on `utcnow()`). -/
structure RunwayResult where
  runway_months : Option ℚ
  runway_days : Option ℚ
  has_depletion_date : Bool
  current_balance : ℚ
  monthly_burn_rate : ℚ
  status : RunwayStatus
deriving DecidableEq

/-- `FinancialCalculator.calculate_runway`. -/
def calculate_runway (current_balance monthly_burn_rate : ℚ) : RunwayResult :=
  if monthly_burn_rate ≤ 0 then
    { runway_months := none
      runway_days := none
      has_depletion_date := false
      current_balance := current_balance
      monthly_burn_rate := monthly_burn_rate
      status := .positive_cash_flow }
  else
    let runway_months := current_balance / monthly_burn_rate
    let status : RunwayStatus :=
      if runway_months < 3 then .critical
      else if runway_months < 6 then .warning
      else if runway_months < 12 then .healthy
      else .excellent
    { runway_months := some (round2 runway_months)
      runway_days := some ((rhe (runway_months * 30) : ℚ))
      has_depletion_date := true
      current_balance := round2 current_balance
      monthly_burn_rate := round2 monthly_burn_rate
      status := status }

/-- Comparison of a possibly-infinite runway with a bound: Python
`float('inf') < c` is `False`. -/
def rmLt (rm : Option ℚ) (c : ℚ) : Bool :=
  match rm with
  | none => false
  | some q => decide (q < c)

/-- Result of `FinancialCalculator.calculate_burn_rate`.  The source
omits the `months_analyzed` key on empty input; the field is 0 there. -/
structure BurnRateResult where
  burn_rate : ℚ
  avg_monthly_expenses : ℚ
  avg_monthly_income : ℚ
  net_burn : ℚ
  period_months : ℕ
  transaction_count : ℕ
  months_analyzed : ℕ
deriving DecidableEq

/-- The denominator used by `calculate_burn_rate`:
`max(len(monthly_income), len(monthly_expenses), 1)`, i.e. the larger of
the number of distinct months holding income and the number of distinct
months holding non-income transactions, floored at 1. -/
def burnDenominator (cutoff : DateT) (transactions : List Txn) : ℕ :=
  max (monthsOf (incomeTxs (recentTxs cutoff transactions))).length
    (max (monthsOf (nonIncomeTxs (recentTxs cutoff transactions))).length 1)

/-- `FinancialCalculator.calculate_burn_rate`.  The source derives the
cutoff as `utcnow() - period_months * 30 days`; the cutoff is a
parameter here and `period_months` is only echoed into the result.
Summing a month-bucketed defaultdict over its values equals summing the
filtered list directly, which is the form used here. -/
def calculate_burn_rate (cutoff : DateT) (transactions : List Txn)
    (period_months : ℕ) : BurnRateResult :=
  if transactions.isEmpty then
    { burn_rate := 0, avg_monthly_expenses := 0, avg_monthly_income := 0
      net_burn := 0, period_months := period_months, transaction_count := 0
      months_analyzed := 0 }
  else
    let recent := recentTxs cutoff transactions
    let num_months := burnDenominator cutoff transactions
    let avg_monthly_income := amountSum (incomeTxs recent) / (num_months : ℚ)
    let avg_monthly_expenses := amountSum (nonIncomeTxs recent) / (num_months : ℚ)
    let net_burn := avg_monthly_expenses - avg_monthly_income
    { burn_rate := round2 net_burn
      avg_monthly_expenses := round2 avg_monthly_expenses
      avg_monthly_income := round2 avg_monthly_income
      net_burn := round2 net_burn
      period_months := period_months
      transaction_count := recent.length
      months_analyzed := num_months }

/-- Insert an integer into an ascending list. -/
def insertAsc (m : ℤ) : List ℤ → List ℤ
  | [] => [m]
  | x :: xs => if m ≤ x then m :: x :: xs else x :: insertAsc m xs

/-- Ascending sort of month keys (month-key strings sort chronologically,
so `sorted(...)` in the source is an ascending month sort). -/
def sortAsc (l : List ℤ) : List ℤ := l.foldr insertAsc []

/-- Filter of `calculate_growth_rate`: within the period and of the
requested metric type. -/
def metricTxs (cutoff : DateT) (metric : String) (transactions : List Txn) : List Txn :=
  transactions.filter (fun t => dateLe cutoff t.date && t.ttype == metric)

/-- The sorted distinct months carrying data for a filtered list. -/
def dataMonths (txs : List Txn) : List ℤ := sortAsc (monthsOf txs)

/-- The per-pair growth loop of `calculate_growth_rate`: walk consecutive
sorted months, keeping `((curr - prev) / prev) * 100` for each pair whose
previous value is positive. -/
def growthPairs (v : ℤ → ℚ) : List ℤ → List ℚ
  | m1 :: m2 :: rest =>
      (if 0 < v m1 then [((v m2 - v m1) / v m1) * 100] else [])
        ++ growthPairs v (m2 :: rest)
  | _ => []

/-- Result of `FinancialCalculator.calculate_growth_rate`.  Echo fields
(`metric`, `period_months`) and presentation fields (`monthly_values`,
`trend`) are omitted; `insufficient_data` is absent (hence false) in the
source on the successful path. -/
structure GrowthRateResult where
  growth_rate : ℚ
  insufficient_data : Bool
deriving DecidableEq

/-- `FinancialCalculator.calculate_growth_rate` (cutoff standing for
`utcnow() - period_months * 30 days`). -/
def calculate_growth_rate (cutoff : DateT) (transactions : List Txn)
    (metric : String) : GrowthRateResult :=
  let filtered := metricTxs cutoff metric transactions
  let sorted_months := dataMonths filtered
  if sorted_months.length < 2 then
    { growth_rate := 0, insufficient_data := true }
  else
    let growth_rates := growthPairs (monthSum filtered) sorted_months
    let avg := if growth_rates.isEmpty then 0
      else growth_rates.sum / (growth_rates.length : ℚ)
    { growth_rate := round2 avg, insufficient_data := false }

/-- Runway factor of `calculate_financial_health_score` (max 40). -/
def runwayFactor (current_balance monthly_burn_rate : ℚ) : ℤ :=
  if 0 < monthly_burn_rate then
    if 18 ≤ current_balance / monthly_burn_rate then 40
    else if 12 ≤ current_balance / monthly_burn_rate then 35
    else if 6 ≤ current_balance / monthly_burn_rate then 25
    else if 3 ≤ current_balance / monthly_burn_rate then 15
    else 5
  else 40

/-- Revenue growth factor of `calculate_financial_health_score` (max 30). -/
def revenueFactor (revenue_growth_rate : ℚ) : ℤ :=
  if 20 ≤ revenue_growth_rate then 30
  else if 10 ≤ revenue_growth_rate then 25
  else if 0 ≤ revenue_growth_rate then 15
  else 5

/-- Expense control factor of `calculate_financial_health_score`
(max 30). -/
def expenseFactor (expense_growth_rate revenue_growth_rate : ℚ) : ℤ :=
  if expense_growth_rate < revenue_growth_rate then 30
  else if expense_growth_rate < 5 then 25
  else if expense_growth_rate < 15 then 20
  else if expense_growth_rate < 30 then 10
  else 5

/-- `FinancialCalculator._get_recommendations`. -/
def healthRecommendations (runway_score revenue_score expense_score : ℤ) : List String :=
  let recs :=
    (if runway_score < 20 then
        ["URGENT: Extend runway by reducing expenses or raising capital"]
      else if runway_score < 30 then
        ["Focus on extending runway to at least 12 months"]
      else [])
    ++ (if revenue_score < 15 then ["Prioritize revenue growth strategies"] else [])
    ++ (if expense_score < 20 then
        ["Control expense growth - expenses growing too fast"] else [])
  if recs.isEmpty then ["Maintain current trajectory"] else recs

/-- Result of `FinancialCalculator.calculate_financial_health_score`. -/
structure HealthScoreResult where
  health_score : ℤ
  rating : String
  runway_score : ℤ
  revenue_growth_score : ℤ
  expense_control_score : ℤ
  recommendations : List String
deriving DecidableEq

/-- `FinancialCalculator.calculate_financial_health_score`. -/
def calculate_financial_health_score
    (current_balance monthly_burn_rate revenue_growth_rate expense_growth_rate : ℚ) :
    HealthScoreResult :=
  let runway_score := runwayFactor current_balance monthly_burn_rate
  let revenue_score := revenueFactor revenue_growth_rate
  let expense_score := expenseFactor expense_growth_rate revenue_growth_rate
  let score := runway_score + revenue_score + expense_score
  { health_score := score
    rating :=
      if 80 ≤ score then "Excellent"
      else if 60 ≤ score then "Good"
      else if 40 ≤ score then "Fair"
      else if 20 ≤ score then "Poor"
      else "Critical"
    runway_score := runway_score
    revenue_growth_score := revenue_score
    expense_control_score := expense_score
    recommendations := healthRecommendations runway_score revenue_score expense_score }

/-- One entry of the category breakdown chart data. -/
structure CatEntry where
  category : String
  amount : ℚ
  percentage : ℚ
deriving DecidableEq

/-- Category keys in first-occurrence order (defaultdict key order). -/
def catKeys (txs : List Txn) : List String :=
  txs.foldl (fun acc t => if t.category ∈ acc then acc else acc ++ [t.category]) []

/-- Total amount of one category in a transaction list. -/
def catTotal (txs : List Txn) (c : String) : ℚ :=
  amountSum (txs.filter (fun t => t.category == c))

/-- Stable descending insertion by amount: an element is placed before
the first entry with an amount not larger than its own, so earlier
elements precede equal-amount later ones (Python `sorted` is stable). -/
def insertDescByAmount (x : String × ℚ) : List (String × ℚ) → List (String × ℚ)
  | [] => [x]
  | y :: ys => if x.2 < y.2 then y :: insertDescByAmount x ys else x :: y :: ys

/-- Stable descending sort of `(category, total)` pairs by total. -/
def sortDescByAmount (l : List (String × ℚ)) : List (String × ℚ) :=
  l.foldr insertDescByAmount []

/-- The `sorted_categories` list of
`ChartGenerator.generate_category_breakdown_chart`: totals per category
of the type-filtered transactions, sorted descending by total. -/
def sortedCategories (transactions : List Txn) (transaction_type : String) :
    List (String × ℚ) :=
  let filtered := transactions.filter (fun t => t.ttype == transaction_type)
  sortDescByAmount ((catKeys filtered).map (fun c => (c, catTotal filtered c)))

/-- The `total` of the chart: sum of the top `top_n` category amounts. -/
def topTotal (cats : List (String × ℚ)) (top_n : ℕ) : ℚ :=
  ((cats.take top_n).map Prod.snd).sum

/-- The `other_amount` of the chart: sum of the remaining amounts. -/
def otherTotal (cats : List (String × ℚ)) (top_n : ℕ) : ℚ :=
  ((cats.drop top_n).map Prod.snd).sum

/-- Sum of the un-rounded top-entry percentages, each taken against the
top-only total. -/
def topPercSum (cats : List (String × ℚ)) (top_n : ℕ) : ℚ :=
  ((cats.take top_n).map (fun p => p.2 / topTotal cats top_n * 100)).sum

/-- `ChartGenerator.generate_category_breakdown_chart`, returning the
`data` list (the `type`/`total`/`category_count` echo fields are
omitted).  Top percentages divide by the top-only total (0 when that
total is not positive); the synthetic "Other" percentage divides by the
combined shown-plus-other total.  Rational division by zero is total
where Python would raise; no claim below touches that corner. -/
def generate_category_breakdown_chart (transactions : List Txn)
    (transaction_type : String) (top_n : ℕ) : List CatEntry :=
  let cats := sortedCategories transactions transaction_type
  let top := cats.take top_n
  let total := (top.map Prod.snd).sum
  let top_entries := top.map (fun p =>
    { category := p.1
      amount := round2 p.2
      percentage := round2 (if 0 < total then p.2 / total * 100 else 0) : CatEntry })
  if top_n < cats.length then
    let other_amount := ((cats.drop top_n).map Prod.snd).sum
    top_entries ++
      [{ category := "Other"
         amount := round2 other_amount
         percentage := round2 (other_amount / (total + other_amount) * 100) }]
  else top_entries

/-- Readiness labels of `assess_financial_readiness`. -/
inductive Readiness where
  | not_ready
  | cautious
  | ready
deriving DecidableEq

/-- Result of the `assess_financial_readiness` tool. -/
structure ReadinessResult where
  readiness : Readiness
  reason : String
  runway_months : Option ℚ
  current_balance : ℚ
  runway_status : RunwayStatus
deriving DecidableEq

/-- `InvestmentAdvisorAgent.process_tool_call("assess_financial_readiness")`. -/
def assess_financial_readiness (current_balance monthly_burn_rate : ℚ) :
    ReadinessResult :=
  let runway := calculate_runway current_balance monthly_burn_rate
  let runway_months := runway.runway_months
  let pr : Readiness × String :=
    if current_balance ≤ 0 then
      (.not_ready, "Negative balance - focus on profitability")
    else if rmLt runway_months 3 then
      (.not_ready, "Critical runway - preserve cash")
    else if rmLt runway_months 6 then
      (.cautious, "Limited runway - minimal investment only")
    else if rmLt runway_months 12 then
      (.ready, "Healthy runway - can invest conservatively")
    else
      (.ready, "Strong runway - can invest moderately")
  { readiness := pr.1
    reason := pr.2
    runway_months := runway_months
    current_balance := current_balance
    runway_status := runway.status }

/-- An allocation split across the four buckets. -/
structure Allocation where
  emergency_fund : ℚ
  low_risk : ℚ
  moderate_risk : ℚ
  growth : ℚ
deriving DecidableEq

/-- Result of the `calculate_investment_capacity` tool. -/
structure CapacityResult where
  current_balance : ℚ
  emergency_fund_required : ℚ
  emergency_fund_months : ℚ
  investable_amount : ℚ
  recommended_allocation : Allocation
  allocation_amounts : Allocation
deriving DecidableEq

/-- `InvestmentAdvisorAgent.process_tool_call("calculate_investment_capacity")`. -/
def calculate_investment_capacity
    (current_balance monthly_expenses emergency_fund_months : ℚ) : CapacityResult :=
  let emergency_fund_required := monthly_expenses * emergency_fund_months
  let investable_amount := max 0 (current_balance - emergency_fund_required)
  let allocation : Allocation :=
    if investable_amount = 0 then ⟨100, 0, 0, 0⟩
    else if current_balance < emergency_fund_required * (3 / 2) then ⟨70, 30, 0, 0⟩
    else if current_balance < emergency_fund_required * 2 then ⟨50, 40, 10, 0⟩
    else ⟨40, 30, 20, 10⟩
  { current_balance := current_balance
    emergency_fund_required := emergency_fund_required
    emergency_fund_months := emergency_fund_months
    investable_amount := investable_amount
    recommended_allocation := allocation
    allocation_amounts :=
      ⟨current_balance * allocation.emergency_fund / 100,
       current_balance * allocation.low_risk / 100,
       current_balance * allocation.moderate_risk / 100,
       current_balance * allocation.growth / 100⟩ }

/-- Result of `InvestmentAdvisorAgent.advise`.  `stabilization_branch`
records which of the two user-message branches was taken;
`investment_options` is the `analysis.investment_options` field, which
the source leaves `[]` whenever the search tool was not invoked. -/
structure AdviseResult where
  readiness : ReadinessResult
  capacity : CapacityResult
  balance : BalanceResult
  burn_rate : BurnRateResult
  investment_options : List String
  stabilization_branch : Bool
  insights : String
  status : String
deriving DecidableEq

/-- `InvestmentAdvisorAgent.advise`.  The LLM response text and the
web-search tool output are opaque collaborators passed as parameters;
`cutoff` stands for the burn-rate window boundary derived from
`utcnow()`. -/
def advise (cutoff : DateT) (llm_text : String) (web_options : List String)
    (initial_capital : ℚ) (transactions : List Txn) : AdviseResult :=
  let balance_info := calculate_balance initial_capital transactions
  let current_balance := balance_info.current_balance
  let burn_rate_analysis := calculate_burn_rate cutoff transactions 3
  let monthly_burn_rate := burn_rate_analysis.burn_rate
  let monthly_expenses := burn_rate_analysis.avg_monthly_expenses
  let readiness := assess_financial_readiness current_balance monthly_burn_rate
  let investment_capacity :=
    calculate_investment_capacity current_balance monthly_expenses 6
  let investment_options : List String :=
    if readiness.readiness = .ready ∨ readiness.readiness = .cautious then
      web_options
    else []
  { readiness := readiness
    capacity := investment_capacity
    balance := balance_info
    burn_rate := burn_rate_analysis
    investment_options := investment_options
    stabilization_branch := decide (readiness.readiness = .not_ready)
    insights := llm_text
    status := "completed" }

/-- The structured result a task returns on success: every agent's
`analyze`/`predict_runway`/`advise` packages `status = "completed"`, the
LLM insight text and its computed analysis facts (of an agent-specific
type). -/
structure AgentResult (α : Type) where
  status : String
  insights : String
  analysis : α
deriving DecidableEq

/-- One task run: the facts are already computed when the Summarize
(LLM) call happens; if that call fails, `BaseAgent.execute` raises and
the agent's own handler re-raises, so the whole task yields an error and
the gathered facts are dropped.  On success the task packages facts and
insight. -/
def runTask {α : Type} (llm : Except String String) (facts : α) :
    Except String (AgentResult α) :=
  match llm with
  | .error e => .error e
  | .ok text => .ok { status := "completed", insights := text, analysis := facts }

/-- A per-task entry of the orchestrator's `results` dict.  Missing keys
are `none`. -/
structure TaskEntry (α : Type) where
  status : String
  insights : Option String
  analysis : Option α
  error : Option String
deriving DecidableEq

/-- Entry recorded for a task that returned normally. -/
def okEntry {α : Type} (r : AgentResult α) : TaskEntry α :=
  { status := r.status, insights := some r.insights
    analysis := some r.analysis, error := none }

/-- Entry recorded by `_run_parallel_workflow` for a task whose awaited
result was an exception: `{"error": str(e), "status": "failed"}`. -/
def failEntry {α : Type} (e : String) : TaskEntry α :=
  { status := "failed", insights := none, analysis := none, error := some e }

/-- How `_run_parallel_workflow` settles one gathered outcome. -/
def parEntry {α : Type} (o : Except String (AgentResult α)) : TaskEntry α :=
  match o with
  | .error e => failEntry e
  | .ok r => okEntry r

/-- The orchestrator's `results` mapping: one optional entry per agent
key, plus the optional top-level `error`/`status` keys the sequential
path adds on failure. -/
structure WorkflowResults (α β γ : Type) where
  financial_analyst : Option (TaskEntry α)
  runway_predictor : Option (TaskEntry β)
  investment_advisor : Option (TaskEntry γ)
  error : Option String
  status : Option String
deriving DecidableEq

/-- `AgentOrchestrator._run_parallel_workflow`: all three tasks settle
independently (`asyncio.gather` with `return_exceptions=True`); an
exception becomes a failure entry, a normal return is stored as-is. -/
def run_parallel_workflow {α β γ : Type}
    (a : Except String (AgentResult α)) (r : Except String (AgentResult β))
    (i : Except String (AgentResult γ)) : WorkflowResults α β γ :=
  { financial_analyst := some (parEntry a)
    runway_predictor := some (parEntry r)
    investment_advisor := some (parEntry i)
    error := none
    status := none }

/-- `AgentOrchestrator._run_sequential_workflow`: tasks run in the fixed
order analyst, runway, investment; the first exception aborts the chain,
leaves every later task absent from `results`, and adds the top-level
`error` and `status = "partial"` keys. -/
def run_sequential_workflow {α β γ : Type}
    (a : Except String (AgentResult α)) (r : Except String (AgentResult β))
    (i : Except String (AgentResult γ)) : WorkflowResults α β γ :=
  match a with
  | .error e =>
      { financial_analyst := none, runway_predictor := none
        investment_advisor := none, error := some e, status := some "partial" }
  | .ok ra =>
    match r with
    | .error e =>
        { financial_analyst := some (okEntry ra), runway_predictor := none
          investment_advisor := none, error := some e, status := some "partial" }
    | .ok rr =>
      match i with
      | .error e =>
          { financial_analyst := some (okEntry ra)
            runway_predictor := some (okEntry rr)
            investment_advisor := none, error := some e, status := some "partial" }
      | .ok ri =>
          { financial_analyst := some (okEntry ra)
            runway_predictor := some (okEntry rr)
            investment_advisor := some (okEntry ri), error := none, status := none }

/-- One agent's entry in the aggregated report: `_aggregate_results`
reads `status`, `insights` (default `""`) and `analysis` (default `{}`,
modelled as `none`) from the task entry. -/
structure AggEntry (α : Type) where
  status : String
  insights : String
  analysis : Option α
deriving DecidableEq

/-- Projection `_aggregate_results` applies to each present task entry. -/
def aggOf {α : Type} (t : TaskEntry α) : AggEntry α :=
  { status := t.status, insights := t.insights.getD "", analysis := t.analysis }

/-- The cross-task summary of `_generate_summary` (headline metric
extraction, which only copies fields, is omitted). -/
structure WfSummary where
  agents_completed : ℕ
  agents_failed : ℕ
  overall_status : String
deriving DecidableEq

/-- Contribution of one optional task entry to the completed counter. -/
def completedCount {α : Type} (o : Option (TaskEntry α)) : ℕ :=
  match o with
  | none => 0
  | some t => if t.status = "completed" then 1 else 0

/-- Contribution of one optional task entry to the failed counter. -/
def failedCount {α : Type} (o : Option (TaskEntry α)) : ℕ :=
  match o with
  | none => 0
  | some t => if t.status = "completed" then 0 else 1

/-- `AgentOrchestrator._generate_summary`: count completed and failed
over the present agent entries (the `error`/`status` keys are skipped),
then derive the overall status. -/
def generate_summary {α β γ : Type} (w : WorkflowResults α β γ) : WfSummary :=
  let completed := completedCount w.financial_analyst
    + completedCount w.runway_predictor + completedCount w.investment_advisor
  let failed := failedCount w.financial_analyst
    + failedCount w.runway_predictor + failedCount w.investment_advisor
  { agents_completed := completed
    agents_failed := failed
    overall_status :=
      if completed = completed + failed then "success"
      else if 0 < completed then "partial"
      else "failed" }

/-- The aggregated workflow report of `_aggregate_results`. -/
structure AggReport (α β γ : Type) where
  financial_analyst : Option (AggEntry α)
  runway_predictor : Option (AggEntry β)
  investment_advisor : Option (AggEntry γ)
  error : Option String
  status : Option String
  summary : WfSummary
deriving DecidableEq

/-- `AgentOrchestrator._aggregate_results`: project each present agent
entry, copy the top-level `error`/`status` keys, attach the summary. -/
def aggregate_results {α β γ : Type} (w : WorkflowResults α β γ) : AggReport α β γ :=
  { financial_analyst := w.financial_analyst.map aggOf
    runway_predictor := w.runway_predictor.map aggOf
    investment_advisor := w.investment_advisor.map aggOf
    error := w.error
    status := w.status
    summary := generate_summary w }

/-- Whether an `Except` outcome is a success. -/
def exceptOk {ε α : Type} (o : Except ε α) : Bool :=
  match o with
  | .ok _ => true
  | .error _ => false

/-- A fixed reference date used by the concrete runs below. -/
def epoch : DateT := ⟨0, 0⟩

/-- Concrete transactions: one income month and a different expense
month inside the analysis window. -/
def c4txs : List Txn :=
  [⟨⟨0, 0⟩, 100, "income", "Sales"⟩, ⟨⟨1, 0⟩, 40, "expense", "Ops"⟩]

/-- Concrete transactions: two expense categories with distinct totals. -/
def c3txs : List Txn :=
  [⟨⟨0, 0⟩, 200, "expense", "A"⟩, ⟨⟨0, 0⟩, 100, "expense", "B"⟩]

/-- Concrete transactions driving the advisor to a negative balance of
-500 with a monthly burn rate of 1000. -/
def c1txs : List Txn := [⟨⟨0, 0⟩, 1000, "expense", "Ops"⟩]

/-- Concrete transactions with three data months whose first month value
is zero, exercising the skipped-pair branch of the growth loop. -/
def c9txs : List Txn :=
  [⟨⟨0, 0⟩, 0, "income", "Sales"⟩, ⟨⟨1, 0⟩, 10, "income", "Sales"⟩,
   ⟨⟨2, 0⟩, 15, "income", "Sales"⟩]

theorem floor_le_rhe (q : ℚ) : ⌊q⌋ ≤ rhe q := by
  unfold rhe
  split_ifs <;> omega

theorem rhe_le_floor_add_one (q : ℚ) : rhe q ≤ ⌊q⌋ + 1 := by
  unfold rhe
  split_ifs <;> omega

theorem rhe_intCast (k : ℤ) : rhe (k : ℚ) = k := by
  unfold rhe
  rw [Int.floor_intCast, if_pos (by norm_num)]

theorem rhe_mono {q r : ℚ} (h : q ≤ r) : rhe q ≤ rhe r := by
  rcases lt_or_le ⌊q⌋ ⌊r⌋ with hf | hf
  · have h1 := rhe_le_floor_add_one q
    have h2 := floor_le_rhe r
    omega
  · have h2 : ⌊q⌋ ≤ ⌊r⌋ := Int.floor_le_floor h
    have hfe : ⌊q⌋ = ⌊r⌋ := le_antisymm h2 hf
    unfold rhe
    rw [← hfe]
    split_ifs <;> first | omega | linarith

theorem round2_nonneg {q : ℚ} (h : 0 ≤ q) : 0 ≤ round2 q := by
  unfold round2
  have h1 : (0 : ℤ) ≤ ⌊100 * q⌋ := Int.floor_nonneg.mpr (by positivity)
  have h2 : (0 : ℤ) ≤ rhe (100 * q) := le_trans h1 (floor_le_rhe (100 * q))
  have h3 : (0 : ℚ) ≤ (rhe (100 * q) : ℚ) := by exact_mod_cast h2
  positivity

theorem round2_mono {q r : ℚ} (h : q ≤ r) : round2 q ≤ round2 r := by
  unfold round2
  have h1 : rhe (100 * q) ≤ rhe (100 * r) :=
    rhe_mono (by linarith)
  have h2 : (rhe (100 * q) : ℚ) ≤ (rhe (100 * r) : ℚ) := by exact_mod_cast h1
  linarith

theorem round2_lt_intCast {q : ℚ} {k : ℤ} (h : round2 q < (k : ℚ)) : q < (k : ℚ) := by
  unfold round2 at h
  have h1 : (rhe (100 * q) : ℚ) < (k : ℚ) * 100 := (div_lt_iff₀ (by norm_num)).mp h
  have h2 : rhe (100 * q) < k * 100 := by exact_mod_cast h1
  have h3 : ⌊100 * q⌋ < k * 100 := lt_of_le_of_lt (floor_le_rhe (100 * q)) h2
  have h4 : 100 * q < ((k * 100 : ℤ) : ℚ) := Int.floor_lt.mp h3
  push_cast at h4
  linarith

theorem round2_of_cents {q : ℚ} {k : ℤ} (h : 100 * q = (k : ℚ)) : round2 q = q := by
  unfold round2
  rw [h, rhe_intCast, div_eq_iff (by norm_num : (100 : ℚ) ≠ 0)]
  linarith

theorem amountSum_nonneg {l : List Txn} (h : ∀ t ∈ l, 0 ≤ t.amount) :
    0 ≤ amountSum l := by
  unfold amountSum
  apply List.sum_nonneg
  intro x hx
  rcases List.mem_map.mp hx with ⟨t, ht, rfl⟩
  exact h t ht

theorem runwayFactor_cases (b r : ℚ) :
    (5 ≤ runwayFactor b r ∧ runwayFactor b r ≤ 40) ∧
    (runwayFactor b r = 5 ∨ 15 ≤ runwayFactor b r) := by
  unfold runwayFactor
  split_ifs <;> norm_num

theorem revenueFactor_cases (g : ℚ) :
    (5 ≤ revenueFactor g ∧ revenueFactor g ≤ 30) ∧
    (revenueFactor g = 5 ∨ 15 ≤ revenueFactor g) := by
  unfold revenueFactor
  split_ifs <;> norm_num

theorem expenseFactor_cases (e g : ℚ) :
    (5 ≤ expenseFactor e g ∧ expenseFactor e g ≤ 30) ∧
    (expenseFactor e g = 5 ∨ 10 ≤ expenseFactor e g) := by
  unfold expenseFactor
  split_ifs <;> norm_num

/-- C10: for every input (any balance, burn rate, and growth rates),
`calculate_financial_health_score` returns a `health_score` in the
interval [15, 100]: each of the three factor tables has minimum value 5
(and maxima 40, 30, 30), so the composite score never falls below 15,
and the Critical rating band (score < 20) is attainable only at exactly
15. -/
theorem c10_health_score_range (b burn rg eg : ℚ) :
    15 ≤ (calculate_financial_health_score b burn rg eg).health_score ∧
    (calculate_financial_health_score b burn rg eg).health_score ≤ 100 ∧
    ((calculate_financial_health_score b burn rg eg).health_score < 20 →
      (calculate_financial_health_score b burn rg eg).health_score = 15) := by
  have h1 := runwayFactor_cases b burn
  have h2 := revenueFactor_cases rg
  have h3 := expenseFactor_cases eg rg
  have hs : (calculate_financial_health_score b burn rg eg).health_score
      = runwayFactor b burn + revenueFactor rg + expenseFactor eg rg := rfl
  rw [hs]
  omega

/-- Witness for C10 at a concrete input reaching the minimum: zero
balance with positive burn, negative revenue growth and runaway expense
growth scores 5 + 5 + 5 = 15, and the theorem pins the score at 15. -/
theorem c10_health_score_range_witness :
    (calculate_financial_health_score 0 1 (-5) 100).health_score < 20 ∧
    (calculate_financial_health_score 0 1 (-5) 100).health_score = 15 := by
  have hval : (calculate_financial_health_score 0 1 (-5) 100).health_score = 15 := by
    norm_num [calculate_financial_health_score, runwayFactor, revenueFactor, expenseFactor]
  refine ⟨by omega, (c10_health_score_range 0 1 (-5) 100).2.2 (by omega)⟩

/-- C7: `calculate_runway` status classification: burn rate at most 0
gives infinite runway (`none`), status `positive_cash_flow` and no
depletion date; for positive burn rate the status is `critical` exactly
when the runway ratio is below 3, `warning` on [3, 6), `healthy` on
[6, 12) and `excellent` at 12 and beyond, so a ratio of exactly 3 is
`warning`, not `critical`. -/
theorem c7_runway_status (B burn : ℚ) :
    (burn ≤ 0 →
      calculate_runway B burn =
        { runway_months := none, runway_days := none, has_depletion_date := false
          current_balance := B, monthly_burn_rate := burn
          status := .positive_cash_flow }) ∧
    (0 < burn →
      (calculate_runway B burn).runway_months = some (round2 (B / burn)) ∧
      (calculate_runway B burn).has_depletion_date = true ∧
      ((calculate_runway B burn).status = .critical ↔ B / burn < 3) ∧
      ((calculate_runway B burn).status = .warning ↔ 3 ≤ B / burn ∧ B / burn < 6) ∧
      ((calculate_runway B burn).status = .healthy ↔ 6 ≤ B / burn ∧ B / burn < 12) ∧
      ((calculate_runway B burn).status = .excellent ↔ 12 ≤ B / burn)) := by
  constructor
  · intro h
    simp [calculate_runway, h]
  · intro h
    have h2 : ¬ burn ≤ 0 := not_le.mpr h
    have hs : (calculate_runway B burn).status =
        (if B / burn < 3 then RunwayStatus.critical
         else if B / burn < 6 then RunwayStatus.warning
         else if B / burn < 12 then RunwayStatus.healthy
         else RunwayStatus.excellent) := by
      simp [calculate_runway, if_neg h2]
    refine ⟨by simp [calculate_runway, h2], by simp [calculate_runway, h2], ?_, ?_, ?_, ?_⟩ <;>
      rw [hs] <;> split_ifs with ha hb hc <;> simp_all <;> intros <;> linarith

/-- Witness for C7: `calculate_runway 30000 10000` has runway exactly 3
and status `warning` (not `critical`), and a zero burn rate yields the
infinite-runway record. -/
theorem c7_runway_status_witness :
    (calculate_runway 30000 10000).status = RunwayStatus.warning ∧
    (calculate_runway 30000 10000).runway_months = some 3 ∧
    (calculate_runway 12345 0).runway_months = none ∧
    (calculate_runway 12345 0).status = RunwayStatus.positive_cash_flow ∧
    (calculate_runway 12345 0).has_depletion_date = false := by
  have h := c7_runway_status 30000 10000
  have hpos := h.2 (by norm_num)
  have h0 := (c7_runway_status 12345 0).1 (le_refl 0)
  have hr : (30000 : ℚ) / 10000 = 3 := by norm_num
  refine ⟨hpos.2.2.2.1.mpr (by rw [hr]; norm_num), ?_, by rw [h0], by rw [h0], by rw [h0]⟩
  rw [hpos.1, hr]
  have : round2 (3 : ℚ) = 3 := round2_of_cents (k := 300) (by norm_num)
  rw [this]

/-- C8 counterexample: with initial capital 1/1000 (a tenth of a cent)
and no transactions the identity value is 1/1000, but the returned
`current_balance` is the 2-decimal rounding 0, so the claimed exact
equality fails. -/
theorem c8_counterexample :
    (calculate_balance (1 / 1000) []).current_balance = 0 ∧
    (1 / 1000 : ℚ) + amountSum (incomeTxs []) - amountSum (expenseTxs []) = 1 / 1000 ∧
    (calculate_balance (1 / 1000) []).current_balance ≠
      (1 / 1000 : ℚ) + amountSum (incomeTxs []) - amountSum (expenseTxs []) := by
  have h1 : (calculate_balance (1 / 1000) []).current_balance = 0 := by
    simp +decide [calculate_balance, amountSum, incomeTxs, expenseTxs, round2, rhe]
    norm_num
  have h2 : (1 / 1000 : ℚ) + amountSum (incomeTxs []) - amountSum (expenseTxs [])
      = 1 / 1000 := by
    simp [amountSum, incomeTxs, expenseTxs]
  refine ⟨h1, h2, ?_⟩
  rw [h1, h2]
  norm_num

/-- C8 as amended: the returned `current_balance` is the 2-decimal
rounding of `initial_capital + Σincome - Σexpense`; the equality is
exact whenever that value is a whole number of cents (in particular for
cent-denominated inputs). -/
theorem c8_amended (initial_capital : ℚ) (transactions : List Txn) (k : ℤ)
    (h : 100 * (initial_capital + amountSum (incomeTxs transactions)
        - amountSum (expenseTxs transactions)) = (k : ℚ)) :
    (calculate_balance initial_capital transactions).current_balance
      = round2 (initial_capital + amountSum (incomeTxs transactions)
          - amountSum (expenseTxs transactions)) ∧
    (calculate_balance initial_capital transactions).current_balance
      = initial_capital + amountSum (incomeTxs transactions)
          - amountSum (expenseTxs transactions) := by
  refine ⟨rfl, ?_⟩
  have h2 := round2_of_cents h
  calc (calculate_balance initial_capital transactions).current_balance
      = round2 (initial_capital + amountSum (incomeTxs transactions)
          - amountSum (expenseTxs transactions)) := rfl
    _ = _ := h2

/-- Witness for C8 as amended: half a dollar initial capital plus a
75-cent income is exactly 1.25 after rounding. -/
theorem c8_amended_witness :
    100 * ((1 / 2 : ℚ) + amountSum (incomeTxs [⟨⟨0, 0⟩, 3 / 4, "income", "Sales"⟩])
        - amountSum (expenseTxs [⟨⟨0, 0⟩, 3 / 4, "income", "Sales"⟩])) = ((125 : ℤ) : ℚ) ∧
    (calculate_balance (1 / 2) [⟨⟨0, 0⟩, 3 / 4, "income", "Sales"⟩]).current_balance
      = (1 / 2 : ℚ) + amountSum (incomeTxs [⟨⟨0, 0⟩, 3 / 4, "income", "Sales"⟩])
          - amountSum (expenseTxs [⟨⟨0, 0⟩, 3 / 4, "income", "Sales"⟩]) := by
  have h : 100 * ((1 / 2 : ℚ) + amountSum (incomeTxs [⟨⟨0, 0⟩, 3 / 4, "income", "Sales"⟩])
      - amountSum (expenseTxs [⟨⟨0, 0⟩, 3 / 4, "income", "Sales"⟩])) = ((125 : ℤ) : ℚ) := by
    simp +decide [amountSum, incomeTxs, expenseTxs]
    norm_num
  exact ⟨h, (c8_amended (1 / 2) [⟨⟨0, 0⟩, 3 / 4, "income", "Sales"⟩] 125 h).2⟩

/-- C4 counterexample: one income transaction in month 0 and one expense
transaction in month 1 give two distinct months with data, so the
claimed denominator is 2 and the claimed average income is 50; the code
divides by `max(#income_months, #expense_months, 1) = 1` and returns
100. -/
theorem c4_counterexample :
    (calculate_burn_rate epoch c4txs 3).avg_monthly_income ≠
      round2 (amountSum (incomeTxs (recentTxs epoch c4txs)) /
        ((max (monthsOf (recentTxs epoch c4txs)).length 1 : ℕ) : ℚ)) := by
  have h1 : (calculate_burn_rate epoch c4txs 3).avg_monthly_income = 100 := by
    simp +decide [calculate_burn_rate, burnDenominator, c4txs, epoch, recentTxs, incomeTxs,
      nonIncomeTxs, amountSum, monthsOf, distinctList, dateLe, round2, rhe]
    norm_num
  have h2 : round2 (amountSum (incomeTxs (recentTxs epoch c4txs)) /
      ((max (monthsOf (recentTxs epoch c4txs)).length 1 : ℕ) : ℚ)) = 50 := by
    simp +decide [c4txs, epoch, recentTxs, incomeTxs, amountSum, monthsOf,
      distinctList, dateLe, round2, rhe]
    norm_num
  rw [h1, h2]
  norm_num

/-- C4 as amended: on non-empty input both averages are the
period-filtered sums divided by the same denominator
`max(#distinct-months-with-income, #distinct-months-with-expense, 1)` —
the larger of the two per-kind month counts, which is not in general the
number of distinct months with any data, and not `period_months`. -/
theorem c4_amended (cutoff : DateT) (transactions : List Txn) (period_months : ℕ)
    (h : transactions ≠ []) :
    (calculate_burn_rate cutoff transactions period_months).avg_monthly_income
      = round2 (amountSum (incomeTxs (recentTxs cutoff transactions))
          / ((burnDenominator cutoff transactions : ℕ) : ℚ)) ∧
    (calculate_burn_rate cutoff transactions period_months).avg_monthly_expenses
      = round2 (amountSum (nonIncomeTxs (recentTxs cutoff transactions))
          / ((burnDenominator cutoff transactions : ℕ) : ℚ)) := by
  have he : transactions.isEmpty = false := by
    cases transactions with
    | nil => exact absurd rfl h
    | cons a l => rfl
  constructor <;> simp [calculate_burn_rate, he]

/-- Witness for C4 as amended at the concrete two-month input. -/
theorem c4_amended_witness :
    c4txs ≠ [] ∧
    (calculate_burn_rate epoch c4txs 3).avg_monthly_income
      = round2 (amountSum (incomeTxs (recentTxs epoch c4txs))
          / ((burnDenominator epoch c4txs : ℕ) : ℚ)) := by
  refine ⟨by simp [c4txs], (c4_amended epoch c4txs 3 (by simp [c4txs])).1⟩

/-- The spec-side description of the growth averaging: over the sorted
data months, keep the percentage growth of exactly those consecutive
pairs whose previous value is positive. -/
def specPairGrowths (v : ℤ → ℚ) (ms : List ℤ) : List ℚ :=
  (ms.zip ms.tail).filterMap
    (fun p => if 0 < v p.1 then some ((v p.2 - v p.1) / v p.1 * 100) else none)

/-- The spec-side average: 0 on an empty list, else the mean. -/
def specAvg (l : List ℚ) : ℚ :=
  if l.isEmpty then 0 else l.sum / (l.length : ℚ)

theorem growthPairs_eq_spec (v : ℤ → ℚ) (ms : List ℤ) :
    growthPairs v ms = specPairGrowths v ms := by
  induction ms with
  | nil => rfl
  | cons m1 rest ih =>
    cases rest with
    | nil => rfl
    | cons m2 rest2 =>
      have ih2 := ih
      simp only [growthPairs, specPairGrowths, List.tail_cons, List.zip_cons_cons,
        List.filterMap_cons] at ih2 ⊢
      split_ifs with h
      · simp [ih2]
      · simp [ih2]

/-- C9: `calculate_growth_rate` averages the month-over-month percentage
growth over exactly those consecutive month pairs whose previous value
is positive (pairs with prior value at most 0 contribute nothing), and
with fewer than 2 distinct data months after filtering it returns
growth rate 0 flagged `insufficient_data`. -/
theorem c9_growth_rate (cutoff : DateT) (metric : String) (transactions : List Txn) :
    ((calculate_growth_rate cutoff transactions metric).insufficient_data = true ↔
      (dataMonths (metricTxs cutoff metric transactions)).length < 2) ∧
    ((dataMonths (metricTxs cutoff metric transactions)).length < 2 →
      (calculate_growth_rate cutoff transactions metric).growth_rate = 0) ∧
    (2 ≤ (dataMonths (metricTxs cutoff metric transactions)).length →
      (calculate_growth_rate cutoff transactions metric).growth_rate
        = round2 (specAvg (specPairGrowths
            (monthSum (metricTxs cutoff metric transactions))
            (dataMonths (metricTxs cutoff metric transactions))))) := by
  by_cases h : (dataMonths (metricTxs cutoff metric transactions)).length < 2
  · exact ⟨by simp [calculate_growth_rate, h],
      fun _ => by simp [calculate_growth_rate, h],
      fun h2 => absurd h (by omega)⟩
  · refine ⟨by simp [calculate_growth_rate, h], fun h1 => absurd h1 h, fun _ => ?_⟩
    simp only [calculate_growth_rate, if_neg h, growthPairs_eq_spec, specAvg]

/-- Witness for C9 at a three-month input whose first month value is 0:
the zero-previous pair is skipped rather than counted, leaving a single
50% pair, and the result is 50 with no insufficient-data flag. -/
theorem c9_growth_rate_witness :
    2 ≤ (dataMonths (metricTxs epoch "income" c9txs)).length ∧
    (calculate_growth_rate epoch c9txs "income").growth_rate
      = round2 (specAvg (specPairGrowths (monthSum (metricTxs epoch "income" c9txs))
          (dataMonths (metricTxs epoch "income" c9txs)))) ∧
    (calculate_growth_rate epoch c9txs "income").growth_rate = 50 ∧
    (calculate_growth_rate epoch c9txs "income").insufficient_data = false := by
  have hlen : 2 ≤ (dataMonths (metricTxs epoch "income" c9txs)).length := by
    simp +decide [dataMonths, metricTxs, c9txs, epoch, monthsOf, distinctList,
      dateLe, sortAsc, insertAsc]
  refine ⟨hlen, (c9_growth_rate epoch "income" c9txs).2.2 hlen, ?_, ?_⟩
  · simp +decide [calculate_growth_rate, dataMonths, metricTxs, c9txs, epoch, monthsOf,
      distinctList, dateLe, sortAsc, insertAsc, growthPairs, monthSum, amountSum,
      round2, rhe]
    norm_num
  · simp +decide [calculate_growth_rate, dataMonths, metricTxs, c9txs, epoch, monthsOf,
      distinctList, dateLe, sortAsc, insertAsc]

theorem map_snd_div_mul_sum (l : List (String × ℚ)) (T : ℚ) :
    (l.map (fun p => p.2 / T * 100)).sum = (l.map Prod.snd).sum / T * 100 := by
  induction l with
  | nil => simp
  | cons a l ih => simp [ih, add_div, add_mul]

/-- C3 counterexample: categories A = 200 and B = 100 with `top_n = 1`
give a displayed list [A at 100%, Other at 33.33%] whose percentages sum
to 133.33, not 100 up to any rounding epsilon (the deviation exceeds
33). -/
theorem c3_counterexample :
    1 < (sortedCategories c3txs "expense").length ∧
    ((generate_category_breakdown_chart c3txs "expense" 1).map CatEntry.percentage).sum
      = 13333 / 100 ∧
    33 < ((generate_category_breakdown_chart c3txs "expense" 1).map CatEntry.percentage).sum
      - 100 := by
  have hlen : 1 < (sortedCategories c3txs "expense").length := by
    simp +decide [sortedCategories, catKeys, catTotal, c3txs, sortDescByAmount,
      insertDescByAmount, amountSum]
  have hsum : ((generate_category_breakdown_chart c3txs "expense" 1).map
      CatEntry.percentage).sum = 13333 / 100 := by
    simp +decide [generate_category_breakdown_chart, sortedCategories, catKeys,
      catTotal, c3txs, sortDescByAmount, insertDescByAmount, amountSum, round2, rhe]
    norm_num
  exact ⟨hlen, hsum, by rw [hsum]; norm_num⟩

/-- C3 as amended: with more categories than `top_n`, the chart is the
top entries followed by a synthetic "Other" entry; each top percentage
is taken against the top-only total (and those un-rounded percentages
sum to exactly 100), while "Other" is taken against the combined
shown-plus-other total — so when the other bucket is positive the
un-rounded displayed percentages sum to strictly more than 100 rather
than to 100. -/
theorem c3_amended (transactions : List Txn) (transaction_type : String) (top_n : ℕ)
    (h1 : top_n < (sortedCategories transactions transaction_type).length)
    (h2 : 0 < topTotal (sortedCategories transactions transaction_type) top_n) :
    generate_category_breakdown_chart transactions transaction_type top_n
      = ((sortedCategories transactions transaction_type).take top_n).map (fun p =>
          { category := p.1, amount := round2 p.2
            percentage := round2 (p.2 /
              topTotal (sortedCategories transactions transaction_type) top_n * 100) })
        ++ [{ category := "Other"
              amount := round2 (otherTotal (sortedCategories transactions transaction_type) top_n)
              percentage := round2 (otherTotal (sortedCategories transactions transaction_type) top_n
                / (topTotal (sortedCategories transactions transaction_type) top_n
                    + otherTotal (sortedCategories transactions transaction_type) top_n) * 100) }] ∧
    topPercSum (sortedCategories transactions transaction_type) top_n = 100 ∧
    (0 < otherTotal (sortedCategories transactions transaction_type) top_n →
      100 < topPercSum (sortedCategories transactions transaction_type) top_n
        + otherTotal (sortedCategories transactions transaction_type) top_n
          / (topTotal (sortedCategories transactions transaction_type) top_n
              + otherTotal (sortedCategories transactions transaction_type) top_n) * 100) := by
  have h2u : 0 < ((List.take top_n (sortedCategories transactions transaction_type)).map
      Prod.snd).sum := by
    have h2c := h2
    unfold topTotal at h2c
    exact h2c
  have h2t : (0 < ((List.take top_n (sortedCategories transactions transaction_type)).map
      Prod.snd).sum) = True := eq_true h2u
  have hps : topPercSum (sortedCategories transactions transaction_type) top_n = 100 := by
    unfold topPercSum
    rw [map_snd_div_mul_sum]
    unfold topTotal
    rw [div_self (ne_of_gt h2u)]
    norm_num
  refine ⟨?_, hps, fun h3 => ?_⟩
  · simp only [generate_category_breakdown_chart, topTotal, otherTotal, if_pos h1, h2t, if_true]
  · have hq : 0 < otherTotal (sortedCategories transactions transaction_type) top_n
        / (topTotal (sortedCategories transactions transaction_type) top_n
            + otherTotal (sortedCategories transactions transaction_type) top_n) * 100 := by
      have hd : 0 < topTotal (sortedCategories transactions transaction_type) top_n
          + otherTotal (sortedCategories transactions transaction_type) top_n := by linarith
      positivity
    linarith [hps, hq]

/-- Witness for C3 as amended at the concrete two-category input with
`top_n = 1`: the top percentages sum to 100 and the displayed un-rounded
total strictly exceeds 100. -/
theorem c3_amended_witness :
    1 < (sortedCategories c3txs "expense").length ∧
    0 < topTotal (sortedCategories c3txs "expense") 1 ∧
    0 < otherTotal (sortedCategories c3txs "expense") 1 ∧
    topPercSum (sortedCategories c3txs "expense") 1 = 100 ∧
    100 < topPercSum (sortedCategories c3txs "expense") 1
      + otherTotal (sortedCategories c3txs "expense") 1
        / (topTotal (sortedCategories c3txs "expense") 1
            + otherTotal (sortedCategories c3txs "expense") 1) * 100 := by
  have hlen : 1 < (sortedCategories c3txs "expense").length := by
    simp +decide [sortedCategories, catKeys, catTotal, c3txs, sortDescByAmount,
      insertDescByAmount, amountSum]
  have htop : 0 < topTotal (sortedCategories c3txs "expense") 1 := by
    simp +decide [topTotal, sortedCategories, catKeys, catTotal, c3txs, sortDescByAmount,
      insertDescByAmount, amountSum]
  have hoth : 0 < otherTotal (sortedCategories c3txs "expense") 1 := by
    simp +decide [otherTotal, sortedCategories, catKeys, catTotal, c3txs, sortDescByAmount,
      insertDescByAmount, amountSum]
  have h := c3_amended c3txs "expense" 1 hlen htop
  exact ⟨hlen, htop, hoth, h.2.1, h.2.2 hoth⟩

theorem amountSum_filter_nonneg {txs : List Txn} (p : Txn → Bool)
    (hpos : ∀ t ∈ txs, 0 ≤ t.amount) : 0 ≤ amountSum (txs.filter p) := by
  apply amountSum_nonneg
  intro t ht
  exact hpos t (List.mem_filter.mp ht).1

theorem burnDenominator_pos (cutoff : DateT) (txs : List Txn) :
    0 < burnDenominator cutoff txs := by
  unfold burnDenominator
  omega

theorem burn_rate_bounds (cutoff : DateT) (txs : List Txn)
    (hpos : ∀ t ∈ txs, 0 ≤ t.amount) :
    0 ≤ (calculate_burn_rate cutoff txs 3).avg_monthly_expenses ∧
    (calculate_burn_rate cutoff txs 3).burn_rate
      ≤ (calculate_burn_rate cutoff txs 3).avg_monthly_expenses := by
  by_cases he : txs.isEmpty
  · constructor <;> simp [calculate_burn_rate, he]
  · have hrec : ∀ t ∈ recentTxs cutoff txs, 0 ≤ t.amount := by
      intro t ht
      exact hpos t (List.mem_filter.mp ht).1
    have hSe : 0 ≤ amountSum (nonIncomeTxs (recentTxs cutoff txs)) :=
      amountSum_filter_nonneg _ hrec
    have hSi : 0 ≤ amountSum (incomeTxs (recentTxs cutoff txs)) :=
      amountSum_filter_nonneg _ hrec
    have hn : (0 : ℚ) < ((burnDenominator cutoff txs : ℕ) : ℚ) := by
      exact_mod_cast burnDenominator_pos cutoff txs
    have hde : 0 ≤ amountSum (nonIncomeTxs (recentTxs cutoff txs))
        / ((burnDenominator cutoff txs : ℕ) : ℚ) := div_nonneg hSe (le_of_lt hn)
    have hdi : 0 ≤ amountSum (incomeTxs (recentTxs cutoff txs))
        / ((burnDenominator cutoff txs : ℕ) : ℚ) := div_nonneg hSi (le_of_lt hn)
    constructor
    · simp only [calculate_burn_rate, if_neg he]
      exact round2_nonneg hde
    · simp only [calculate_burn_rate, if_neg he]
      exact round2_mono (by linarith)

theorem capacity_gate {cb mexp : ℚ} (h : cb - mexp * 6 ≤ 0) :
    (calculate_investment_capacity cb mexp 6).recommended_allocation = ⟨100, 0, 0, 0⟩ ∧
    (calculate_investment_capacity cb mexp 6).allocation_amounts.low_risk = 0 ∧
    (calculate_investment_capacity cb mexp 6).allocation_amounts.moderate_risk = 0 ∧
    (calculate_investment_capacity cb mexp 6).allocation_amounts.growth = 0 := by
  have hmax : max 0 (cb - mexp * 6) = 0 := max_eq_left h
  refine ⟨?_, ?_, ?_, ?_⟩ <;> simp [calculate_investment_capacity, hmax]

theorem advise_fields (cutoff : DateT) (llm_text : String) (web_options : List String)
    (initial_capital : ℚ) (transactions : List Txn) :
    (advise cutoff llm_text web_options initial_capital transactions).readiness
      = assess_financial_readiness
          (calculate_balance initial_capital transactions).current_balance
          (calculate_burn_rate cutoff transactions 3).burn_rate ∧
    (advise cutoff llm_text web_options initial_capital transactions).capacity
      = calculate_investment_capacity
          (calculate_balance initial_capital transactions).current_balance
          (calculate_burn_rate cutoff transactions 3).avg_monthly_expenses 6 ∧
    (advise cutoff llm_text web_options initial_capital transactions).balance
      = calculate_balance initial_capital transactions ∧
    (advise cutoff llm_text web_options initial_capital transactions).investment_options
      = (if (assess_financial_readiness
            (calculate_balance initial_capital transactions).current_balance
            (calculate_burn_rate cutoff transactions 3).burn_rate).readiness = .ready ∨
          (assess_financial_readiness
            (calculate_balance initial_capital transactions).current_balance
            (calculate_burn_rate cutoff transactions 3).burn_rate).readiness = .cautious
          then web_options else []) ∧
    (advise cutoff llm_text web_options initial_capital transactions).stabilization_branch
      = decide ((assess_financial_readiness
          (calculate_balance initial_capital transactions).current_balance
          (calculate_burn_rate cutoff transactions 3).burn_rate).readiness = .not_ready) := by
  exact ⟨rfl, rfl, rfl, rfl, rfl⟩

theorem readiness_not_ready_of_gate {cb burn : ℚ}
    (h : cb ≤ 0 ∨ rmLt (calculate_runway cb burn).runway_months 3 = true) :
    (assess_financial_readiness cb burn).readiness = .not_ready := by
  by_cases hcb : cb ≤ 0
  · simp [assess_financial_readiness, if_pos hcb]
  · rcases h with hcb2 | hrm
    · exact absurd hcb2 hcb
    · simp [assess_financial_readiness, if_neg hcb, hrm]

theorem balance_lt_of_runway_lt {cb burn mexp : ℚ}
    (hrm : rmLt (calculate_runway cb burn).runway_months 3 = true)
    (hbm : burn ≤ mexp) :
    cb - mexp * 6 ≤ 0 := by
  by_cases hb0 : burn ≤ 0
  · simp [calculate_runway, if_pos hb0, rmLt] at hrm
  · have hbpos : 0 < burn := not_le.mp hb0
    have hq : round2 (cb / burn) < 3 := by
      simp [calculate_runway, if_neg hb0, rmLt] at hrm
      exact hrm
    have hq3 : round2 (cb / burn) < ((3 : ℤ) : ℚ) := by exact_mod_cast hq
    have hlt : cb / burn < ((3 : ℤ) : ℚ) := round2_lt_intCast hq3
    have hlt2 : cb / burn < 3 := by exact_mod_cast hlt
    have hcb3 : cb < 3 * burn := by
      have := (div_lt_iff₀ hbpos).mp hlt2
      linarith
    have hmp : 0 < mexp := lt_of_lt_of_le hbpos hbm
    nlinarith

/-- C1: Investment Advice gate: whenever the computed current balance is
at most 0 or the computed runway months are below 3 (given the data
model invariant that all transaction amounts are non-negative), `advise`
assesses the company as not ready, routes to the stabilization-guidance
branch, surfaces no investment options, and the capacity allocation it
carries is emergency-fund only — the low-risk, moderate-risk and growth
allocation fields (percentages and amounts) are all 0. -/
theorem c1_gate (cutoff : DateT) (llm_text : String) (web_options : List String)
    (initial_capital : ℚ) (transactions : List Txn)
    (hpos : ∀ t ∈ transactions, 0 ≤ t.amount)
    (hgate : (advise cutoff llm_text web_options initial_capital transactions).balance.current_balance ≤ 0 ∨
      rmLt (advise cutoff llm_text web_options initial_capital transactions).readiness.runway_months 3 = true) :
    (advise cutoff llm_text web_options initial_capital transactions).readiness.readiness
      = Readiness.not_ready ∧
    (advise cutoff llm_text web_options initial_capital transactions).stabilization_branch = true ∧
    (advise cutoff llm_text web_options initial_capital transactions).investment_options = [] ∧
    (advise cutoff llm_text web_options initial_capital transactions).capacity.recommended_allocation.low_risk = 0 ∧
    (advise cutoff llm_text web_options initial_capital transactions).capacity.recommended_allocation.moderate_risk = 0 ∧
    (advise cutoff llm_text web_options initial_capital transactions).capacity.recommended_allocation.growth = 0 ∧
    (advise cutoff llm_text web_options initial_capital transactions).capacity.allocation_amounts.low_risk = 0 ∧
    (advise cutoff llm_text web_options initial_capital transactions).capacity.allocation_amounts.moderate_risk = 0 ∧
    (advise cutoff llm_text web_options initial_capital transactions).capacity.allocation_amounts.growth = 0 := by
  obtain ⟨hf1, hf2, hf3, hf4, hf5⟩ :=
    advise_fields cutoff llm_text web_options initial_capital transactions
  rw [hf3] at hgate
  have hrun : (advise cutoff llm_text web_options initial_capital transactions).readiness.runway_months
      = (calculate_runway (calculate_balance initial_capital transactions).current_balance
          (calculate_burn_rate cutoff transactions 3).burn_rate).runway_months := by
    rw [hf1]
    rfl
  rw [hrun] at hgate
  have hnr := readiness_not_ready_of_gate hgate
  have hbounds := burn_rate_bounds cutoff transactions hpos
  have hinv : (calculate_balance initial_capital transactions).current_balance
      - (calculate_burn_rate cutoff transactions 3).avg_monthly_expenses * 6 ≤ 0 := by
    rcases hgate with hcb | hrm
    · nlinarith [hbounds.1]
    · exact balance_lt_of_runway_lt hrm hbounds.2
  have hcap := capacity_gate hinv
  refine ⟨by rw [hf1]; exact hnr, ?_, ?_, ?_, ?_, ?_, ?_, ?_, ?_⟩
  · rw [hf5, hnr]
    rfl
  · rw [hf4, hnr]
    simp
  · rw [hf2, hcap.1]
  · rw [hf2, hcap.1]
  · rw [hf2, hcap.1]
  · rw [hf2]
    exact hcap.2.1
  · rw [hf2]
    exact hcap.2.2.1
  · rw [hf2]
    exact hcap.2.2.2

/-- Witness for C1: initial capital 500 with a single 1000 expense gives
computed balance -500 and burn rate 1000 (the spec's concrete instance);
the theorem yields the stabilization-only result. -/
theorem c1_gate_witness :
    (∀ t ∈ c1txs, 0 ≤ t.amount) ∧
    (advise epoch "guidance" ["hysa"] 500 c1txs).balance.current_balance = -500 ∧
    (advise epoch "guidance" ["hysa"] 500 c1txs).burn_rate.burn_rate = 1000 ∧
    (advise epoch "guidance" ["hysa"] 500 c1txs).readiness.readiness = Readiness.not_ready ∧
    (advise epoch "guidance" ["hysa"] 500 c1txs).stabilization_branch = true ∧
    (advise epoch "guidance" ["hysa"] 500 c1txs).investment_options = [] ∧
    (advise epoch "guidance" ["hysa"] 500 c1txs).capacity.recommended_allocation.low_risk = 0 ∧
    (advise epoch "guidance" ["hysa"] 500 c1txs).capacity.recommended_allocation.growth = 0 := by
  have hpos : ∀ t ∈ c1txs, 0 ≤ t.amount := by
    intro t ht
    simp [c1txs] at ht
    rw [ht]
    norm_num
  have hcb : (advise epoch "guidance" ["hysa"] 500 c1txs).balance.current_balance = -500 := by
    simp +decide [advise, calculate_balance, amountSum, incomeTxs, expenseTxs, c1txs,
      round2, rhe]
    norm_num
  have hbr : (advise epoch "guidance" ["hysa"] 500 c1txs).burn_rate.burn_rate = 1000 := by
    simp +decide [advise, calculate_burn_rate, burnDenominator, c1txs, epoch, recentTxs,
      incomeTxs, nonIncomeTxs, amountSum, monthsOf, distinctList, dateLe, round2, rhe]
    norm_num
  have h := c1_gate epoch "guidance" ["hysa"] 500 c1txs hpos (Or.inl (by rw [hcb]; norm_num))
  exact ⟨hpos, hcb, hbr, h.1, h.2.1, h.2.2.1, h.2.2.2.1, h.2.2.2.2.2.1⟩

/-- C2 counterexample: in a parallel run whose analyst task computed
facts (a concrete balance analysis) but whose Summarize call failed, the
aggregated report's analyst entry is the bare failure record — its
analysis field is empty rather than containing the gathered facts. -/
theorem c2_counterexample :
    (aggregate_results (run_parallel_workflow
        (runTask (Except.error "llm failure") (calculate_balance 1000 c4txs))
        (runTask (Except.ok "runway insight") (calculate_runway 30000 10000))
        (runTask (Except.ok "advice") (calculate_runway 1 1)))).financial_analyst
      = some { status := "failed", insights := "", analysis := none } ∧
    (none : Option BalanceResult) ≠ some (calculate_balance 1000 c4txs) := by
  exact ⟨rfl, by simp⟩

/-- C2 as amended: when a task's Summarize call fails, that task
degrades to a Failure outcome whose aggregated entry carries only the
failed status and an empty insight, with no analysis facts — the facts
computed before the synthesis step are not preserved; a successful task
carries its insight and facts, and each parallel slot settles
independently of the others. -/
theorem c2_amended {α β γ : Type} (e insight : String) (facts : α)
    (a : Except String (AgentResult α)) (r : Except String (AgentResult β))
    (i : Except String (AgentResult γ)) :
    aggOf (parEntry (runTask (Except.error e) facts))
      = { status := "failed", insights := "", analysis := none } ∧
    aggOf (parEntry (runTask (Except.ok insight) facts))
      = { status := "completed", insights := insight, analysis := some facts } ∧
    (aggregate_results (run_parallel_workflow a r i)).financial_analyst
      = some (aggOf (parEntry a)) ∧
    (aggregate_results (run_parallel_workflow a r i)).runway_predictor
      = some (aggOf (parEntry r)) ∧
    (aggregate_results (run_parallel_workflow a r i)).investment_advisor
      = some (aggOf (parEntry i)) :=
  ⟨rfl, rfl, rfl, rfl, rfl⟩

/-- C5 counterexample: in a sequential run where the runway task fails
after a completed spending analysis, the cross-task summary's
`overall_status` is "success", not the claimed PartialFailure — only
the report's top-level status field says "partial". -/
theorem c5_counterexample :
    (aggregate_results (run_sequential_workflow
        (runTask (Except.ok "spending insight") (calculate_balance 1000 c4txs))
        (Except.error "runway task failed" : Except String (AgentResult RunwayResult))
        (runTask (Except.ok "advice") (calculate_runway 1 1)))).summary.overall_status
      = "success" ∧
    (aggregate_results (run_sequential_workflow
        (runTask (Except.ok "spending insight") (calculate_balance 1000 c4txs))
        (Except.error "runway task failed" : Except String (AgentResult RunwayResult))
        (runTask (Except.ok "advice") (calculate_runway 1 1)))).status = some "partial" ∧
    ("success" : String) ≠ "partial" := by
  exact ⟨rfl, rfl, by simp⟩

/-- C5 as amended: when a sequential task fails, no later task is
launched (the report does not depend on the downstream outcomes), the
tasks after the failed one are absent from the report, every task
completed before it is still present with its insight and facts, and the
report's top-level status field is "partial" — but the summary's
`overall_status` reports "success", because the failed and unlaunched
tasks contribute no counted entry. -/
theorem c5_amended {α β γ : Type} (e ta tr : String) (fa : α) (fr : β)
    (x x2 : Except String (AgentResult β)) (y y2 : Except String (AgentResult γ)) :
    (aggregate_results (run_sequential_workflow
        (Except.error e : Except String (AgentResult α)) x y)
      = { financial_analyst := none, runway_predictor := none, investment_advisor := none
          error := some e, status := some "partial"
          summary := { agents_completed := 0, agents_failed := 0
                       overall_status := "success" } }) ∧
    run_sequential_workflow (Except.error e : Except String (AgentResult α)) x y
      = run_sequential_workflow (Except.error e) x2 y2 ∧
    (aggregate_results (run_sequential_workflow (runTask (Except.ok ta) fa)
        (Except.error e : Except String (AgentResult β)) y)
      = { financial_analyst := some { status := "completed", insights := ta
                                      analysis := some fa }
          runway_predictor := none, investment_advisor := none
          error := some e, status := some "partial"
          summary := { agents_completed := 1, agents_failed := 0
                       overall_status := "success" } }) ∧
    run_sequential_workflow (runTask (Except.ok ta) fa)
        (Except.error e : Except String (AgentResult β)) y
      = run_sequential_workflow (runTask (Except.ok ta) fa) (Except.error e) y2 ∧
    (aggregate_results (run_sequential_workflow (runTask (Except.ok ta) fa)
        (runTask (Except.ok tr) fr) (Except.error e : Except String (AgentResult γ)))
      = { financial_analyst := some { status := "completed", insights := ta
                                      analysis := some fa }
          runway_predictor := some { status := "completed", insights := tr
                                     analysis := some fr }
          investment_advisor := none
          error := some e, status := some "partial"
          summary := { agents_completed := 2, agents_failed := 0
                       overall_status := "success" } }) :=
  ⟨rfl, rfl, rfl, rfl, rfl⟩

/-- C6: parallel workflow: each task's failure is isolated (every slot
settles from its own outcome alone, and a successful task's entry keeps
its insight text and facts unchanged), and the aggregated
`overall_status` is "success" exactly when all three tasks succeeded,
"failed" exactly when all three failed, and "partial" otherwise. -/
theorem c6_parallel_status {α β γ : Type} (la lr li : Except String String)
    (fa : α) (fr : β) (fi : γ) :
    ((aggregate_results (run_parallel_workflow (runTask la fa) (runTask lr fr)
        (runTask li fi))).summary.overall_status = "success" ↔
      exceptOk la = true ∧ exceptOk lr = true ∧ exceptOk li = true) ∧
    ((aggregate_results (run_parallel_workflow (runTask la fa) (runTask lr fr)
        (runTask li fi))).summary.overall_status = "failed" ↔
      exceptOk la = false ∧ exceptOk lr = false ∧ exceptOk li = false) ∧
    ((aggregate_results (run_parallel_workflow (runTask la fa) (runTask lr fr)
        (runTask li fi))).summary.overall_status = "partial" ↔
      ¬(exceptOk la = true ∧ exceptOk lr = true ∧ exceptOk li = true) ∧
      ¬(exceptOk la = false ∧ exceptOk lr = false ∧ exceptOk li = false)) ∧
    (∀ t, la = Except.ok t →
      (aggregate_results (run_parallel_workflow (runTask la fa) (runTask lr fr)
        (runTask li fi))).financial_analyst
        = some { status := "completed", insights := t, analysis := some fa }) ∧
    (∀ t, lr = Except.ok t →
      (aggregate_results (run_parallel_workflow (runTask la fa) (runTask lr fr)
        (runTask li fi))).runway_predictor
        = some { status := "completed", insights := t, analysis := some fr }) ∧
    (∀ t, li = Except.ok t →
      (aggregate_results (run_parallel_workflow (runTask la fa) (runTask lr fr)
        (runTask li fi))).investment_advisor
        = some { status := "completed", insights := t, analysis := some fi }) := by
  rcases la with e1 | t1 <;> rcases lr with e2 | t2 <;> rcases li with e3 | t3 <;>
    refine ⟨?_, ?_, ?_, ?_, ?_, ?_⟩ <;>
    simp +decide [aggregate_results, run_parallel_workflow, runTask, parEntry, okEntry,
      failEntry, aggOf, generate_summary, completedCount, failedCount, exceptOk]

/-- Witness for C6: exactly one of three tasks fails; the overall status
is "partial" and the two successful tasks' insight texts and facts are
present unchanged. -/
theorem c6_parallel_status_witness :
    (aggregate_results (run_parallel_workflow
        (runTask (Except.error "llm down") (calculate_balance 0 c4txs))
        (runTask (Except.ok "runway ok") (calculate_runway 30000 10000))
        (runTask (Except.ok "advice ok") (calculate_runway 1 1)))).summary.overall_status
      = "partial" ∧
    (aggregate_results (run_parallel_workflow
        (runTask (Except.error "llm down") (calculate_balance 0 c4txs))
        (runTask (Except.ok "runway ok") (calculate_runway 30000 10000))
        (runTask (Except.ok "advice ok") (calculate_runway 1 1)))).runway_predictor
      = some { status := "completed", insights := "runway ok"
               analysis := some (calculate_runway 30000 10000) } ∧
    (aggregate_results (run_parallel_workflow
        (runTask (Except.error "llm down") (calculate_balance 0 c4txs))
        (runTask (Except.ok "runway ok") (calculate_runway 30000 10000))
        (runTask (Except.ok "advice ok") (calculate_runway 1 1)))).investment_advisor
      = some { status := "completed", insights := "advice ok"
               analysis := some (calculate_runway 1 1) } := by
  have h := c6_parallel_status (Except.error "llm down") (Except.ok "runway ok")
    (Except.ok "advice ok") (calculate_balance 0 c4txs) (calculate_runway 30000 10000)
    (calculate_runway 1 1)
  refine ⟨h.2.2.1.mpr ⟨?_, ?_⟩, h.2.2.2.2.1 "runway ok" rfl, h.2.2.2.2.2 "advice ok" rfl⟩
  · intro hc
    simp [exceptOk] at hc
  · intro hc
    simp [exceptOk] at hc

end CashHorizon
